import Mathlib

/-!
Verification of the hybrid hot/cold lane dispatcher and content-addressed
result cache of `main_tts.py` (Coqui TTS local server).

The Python source is shallowly embedded: the filesystem is a list of
existing paths, external processes (the TTS engine, the cold-lane worker,
ffmpeg) are represented by outcome parameters carried in a `World` record,
and the request handler `create_speech` becomes a pure function from a
`World` and a request to an `Outcome` describing the HTTP result, the
final filesystem, the lock state and which lanes / converters ran.
-/

namespace TTSServer

/-- Model of hashlib.md5(s.encode()).hexdigest() as used for cache keys and
ephemeral voice ids: an abstract, stable, collision-free fingerprint of the
digested material, represented by the material itself.  Every claim about
digests in this development depends only on the digest being a deterministic
function (and, for key distinctness, collision-free on the inputs used, which
is how the spec defines the digest). -/
def md5Hex (s : String) : String := s

/-- Model of os.path.join for a relative second component. -/
def pathJoin (a b : String) : String := a ++ "/" ++ b

/-- Model of the Python substring test (`t in s`). -/
def strContains (s t : String) : Bool := decide (1 < (s.splitOn t).length)

/-- Model of Python str.lower() for the ASCII identifiers this server
lowercases (voice identifiers, model names). -/
def strLower (s : String) : String := String.mk (s.data.map Char.toLower)

/-- The static VOICE_MAP dictionary from main_tts.py. -/
def VOICE_MAP : List (String × String) :=
  [("alloy", "standard/alloy.wav"),
   ("echo", "standard/echo.wav"),
   ("fable", "standard/fable.wav"),
   ("onyx", "standard/onyx.wav"),
   ("nova", "standard/nova.wav"),
   ("shimmer", "standard/shimmer.wav"),
   ("jarvis", "elite/paul_bettany.wav"),
   ("friday", "elite/Friday.wav"),
   ("hal", "elite/hal9000.wav")]

/-- The OpenAI-style request schema (class SpeechRequest).  `speed` is the
decimal rendering of the float as it appears in the f-string that builds the
cache key; the handler only ever passes it through opaquely. -/
structure SpeechRequest where
  model : String := "tts-1"
  input : String
  voice : String := "alloy"
  language : Option String := some "en"
  response_format : String := "mp3"
  speed : String := "1.0"
deriving DecidableEq

/-- The environment a single `create_speech` call runs in: configuration
read from os.environ, the filesystem (as the list of existing paths), the
shared hot-worker state, and the outcomes of the external calls the request
may make (hot synthesis, cold-lane subprocess, ffmpeg, os.remove). -/
structure World where
  /-- Paths currently existing on disk (os.path.exists). -/
  fs : List String
  /-- tts_hot_worker is not None. -/
  hotLoaded : Bool
  /-- model_lock is currently held by another request. -/
  lockHeld : Bool
  /-- os.environ TTS_MODEL (or the default). -/
  modelName : String
  voiceAssetDir : String
  audioCacheDir : String
  modelCacheDir : String
  tmpDir : String
  venvPython : String
  ttsScript : String
  /-- os.environ as inherited by subprocesses. -/
  osEnv : String → Option String
  /-- The hot-lane tts_to_file call returns normally. -/
  warmOk : Bool
  /-- str(e) for the exception raised by a failing hot-lane call. -/
  warmErr : String
  /-- Return code of the cold-lane subprocess. -/
  coldExit : Nat
  /-- Captured stderr of the cold-lane subprocess. -/
  coldStderr : String
  /-- Return code of the ffmpeg subprocess. -/
  ffmpegExit : Nat
  /-- Captured stderr of the ffmpeg subprocess. -/
  ffmpegStderr : String
  /-- Whether a failing ffmpeg run created its output file before exiting
  nonzero (external codec behaviour, not constrained by the server). -/
  ffmpegWroteOutput : Bool
  /-- os.remove raises (e.g. the file is locked); the handler swallows it. -/
  removeRaises : Bool

/-- Model of threading.Lock.acquire(blocking=False): on a held lock it
returns false and leaves the lock untouched, on a free lock it returns true
and takes it.  Result: (return value, lock state afterwards). -/
def tryAcquire (locked : Bool) : Bool × Bool :=
  if locked then (false, locked) else (true, true)

/-- Voice resolution step of create_speech (lines 230-239): an uploaded
reference wins outright; otherwise the lowercased identifier is looked up in
VOICE_MAP with the alloy file as default, and a mapped file missing on disk
falls back to the alloy reference path while the voice id keeps the
lowercased requested identifier.  Returns (speaker_wav, voice_id). -/
def computeVoice (w : World) (custom_wav_path : Option String)
    (reqVoice : String) : String × String :=
  match custom_wav_path with
  | some p => (p, md5Hex p)
  | none =>
    let v_file := (VOICE_MAP.lookup (strLower reqVoice)).getD "standard/alloy.wav"
    let speaker_wav := pathJoin w.voiceAssetDir v_file
    let voice_id := strLower reqVoice
    if w.fs.contains speaker_wav then (speaker_wav, voice_id)
    else (pathJoin w.voiceAssetDir "standard/alloy.wav", voice_id)

/-- Model of `req.language if req.language else "en"` (None and the empty
string are both falsy in Python). -/
def langOf (l : Option String) : String :=
  match l with
  | none => "en"
  | some s => if s = "" then "en" else s

/-- The cache key of create_speech line 243:
md5 over f-string {input}{voice_id}{speed}{response_format}{lang}{model}. -/
def cacheKeyOf (w : World) (req : SpeechRequest) (voice_id : String) : String :=
  md5Hex (req.input ++ voice_id ++ req.speed ++ req.response_format
          ++ langOf req.language ++ w.modelName)

/-- create_speech line 244: os.path.join(AUDIO_CACHE_DIR, cache_key.fmt). -/
def finalOutputPath (w : World) (req : SpeechRequest) (voice_id : String) :
    String :=
  pathJoin w.audioCacheDir (cacheKeyOf w req voice_id ++ "." ++ req.response_format)

/-- Result of convert_audio: the Except mirrors normal return vs raised
exception, `fs` the filesystem afterwards, `ffmpegCmd` the argument vector of
the ffmpeg subprocess when one was spawned (none for the wav copy path and
for the missing-input early raise). -/
structure ConvertResult where
  res : Except String Unit
  fs : List String
  ffmpegCmd : Option (List String)

/-- The ffmpeg argument vector built by convert_audio lines 181-185. -/
def convertCmd (input_path output_path fmt : String) : List String :=
  ["ffmpeg", "-y", "-i", input_path]
  ++ (if fmt = "mp3" then ["-codec:a", "libmp3lame", "-qscale:a", "2"]
      else if fmt = "opus" then ["-codec:a", "libopus", "-b:a", "64k"]
      else if fmt = "flac" then ["-codec:a", "flac"]
      else [])
  ++ [output_path]

/-- convert_audio (lines 169-189): fmt "wav" is a shutil.copy of the input
to the output and returns; otherwise, after a stability sleep, a missing
input raises FileNotFoundError, and else ffmpeg is run with the
format-specific codec arguments, raising on a nonzero return code.  The
output file is written directly at `output_path`; on a nonzero exit the
external codec may or may not have created it (`ffmpegWroteOutput`). -/
def convert_audio (fs : List String) (input_path output_path fmt : String)
    (ffmpegExit : Nat) (ffmpegStderr : String) (ffmpegWroteOutput : Bool) :
    ConvertResult :=
  if fmt = "wav" then
    { res := Except.ok (), fs := output_path :: fs, ffmpegCmd := none }
  else if ¬ (fs.contains input_path) then
    { res := Except.error ("Input WAV file missing: " ++ input_path),
      fs := fs, ffmpegCmd := none }
  else if ffmpegExit ≠ 0 then
    { res := Except.error ("FFmpeg failed (code " ++ toString ffmpegExit
               ++ "): " ++ ffmpegStderr),
      fs := if ffmpegWroteOutput then output_path :: fs else fs,
      ffmpegCmd := some (convertCmd input_path output_path fmt) }
  else
    { res := Except.ok (), fs := output_path :: fs,
      ffmpegCmd := some (convertCmd input_path output_path fmt) }

/-- The environment dict handed to the cold-lane subprocess (lines 201-203):
a copy of os.environ with COQUI_TOS_AGREED and TTS_HOME overwritten. -/
def coldLaneEnv (base : String → Option String) (modelCacheDir : String) :
    String → Option String :=
  fun k =>
    if k = "TTS_HOME" then some modelCacheDir
    else if k = "COQUI_TOS_AGREED" then some "1"
    else base k

/-- The cold-lane command line (lines 204-206). -/
def coldLaneCmd (venvPython ttsScript text model_name out_path speaker_wav
    lang : String) : List String :=
  [venvPython, ttsScript, "--text", text, "--model_name", model_name,
   "--out_path", out_path, "--progress_bar", "False", "--use_cuda", "yes"]
  ++ (if strContains (strLower model_name) "xtts"
        || strContains (strLower model_name) "your_tts" then
        ["--speaker_wav", speaker_wav, "--language_idx", lang]
      else [])

/-- A subprocess.run invocation as the supervisor issues it. -/
structure SubprocessSpec where
  cmd : List String
  env : String → Option String
  captureOutput : Bool

/-- run_tts_cold_lane (lines 199-210): spawn the tts worker with the consent
flag forced into its environment and output captured; a zero exit writes the
requested out_path, a nonzero exit raises carrying the captured stderr.
Returns (the spawned invocation, the raised-or-ok result, the filesystem). -/
def run_tts_cold_lane (w : World) (text lang speaker_wav out_path : String) :
    SubprocessSpec × Except String Unit × List String :=
  let model_name := w.modelName
  let spec : SubprocessSpec :=
    { cmd := coldLaneCmd w.venvPython w.ttsScript text model_name out_path
        speaker_wav lang,
      env := coldLaneEnv w.osEnv w.modelCacheDir,
      captureOutput := true }
  if w.coldExit ≠ 0 then
    (spec, Except.error ("Cold Lane Subprocess failed: " ++ w.coldStderr), w.fs)
  else
    (spec, Except.ok (), out_path :: w.fs)

/-- Outcome of the try-block body of create_speech (lines 251-256): the
synthesis dispatch followed by the conversion, before the finally-cleanup. -/
structure TryResult where
  res : Except String Unit
  fs : List String
  usedWarm : Bool
  usedCold : Bool
  convertInvoked : Bool
  ffmpegCmd : Option (List String)

/-- The try-block body: acquire the model lock non-blockingly if the hot
worker is loaded; on success run the hot lane under the lock (released in a
finally on both outcomes), otherwise run the cold lane; then, if synthesis
returned, run convert_audio from the temporary wav to the final path. -/
def tryBody (w : World) (req : SpeechRequest) (speaker_wav temp_wav
    final_output_path : String) : TryResult :=
  let acquired := w.hotLoaded && (tryAcquire w.lockHeld).1
  let synth : Except String Unit × List String × Bool × Bool :=
    if acquired then
      (if w.warmOk then (Except.ok (), temp_wav :: w.fs, true, false)
       else (Except.error w.warmErr, w.fs, true, false))
    else
      let c := run_tts_cold_lane w req.input (langOf req.language)
        speaker_wav temp_wav
      (c.2.1, c.2.2, false, true)
  match synth.1 with
  | Except.error e =>
    { res := Except.error e, fs := synth.2.1, usedWarm := synth.2.2.1,
      usedCold := synth.2.2.2, convertInvoked := false, ffmpegCmd := none }
  | Except.ok _ =>
    let cv := convert_audio synth.2.1 temp_wav final_output_path
      req.response_format w.ffmpegExit w.ffmpegStderr w.ffmpegWroteOutput
    { res := cv.res, fs := cv.fs, usedWarm := synth.2.2.1,
      usedCold := synth.2.2.2, convertInvoked := true,
      ffmpegCmd := cv.ffmpegCmd }

/-- Best-effort removal (lines 260-265): `if os.path.exists(p): try
os.remove(p) except: pass` — a raising removal is swallowed and leaves the
file in place. -/
def removeIfExists (removeRaises : Bool) (fs : List String) (p : String) :
    List String :=
  if fs.contains p then (if removeRaises then fs else fs.erase p) else fs

/-- The finally-block of create_speech (lines 258-265): best-effort removal
of the temporary wav, then of the ephemeral uploaded reference if any. -/
def cleanup (w : World) (fs : List String) (temp_wav : String)
    (custom_wav_path : Option String) : List String :=
  let fs1 := removeIfExists w.removeRaises fs temp_wav
  match custom_wav_path with
  | some p => removeIfExists w.removeRaises fs1 p
  | none => fs1

/-- What a finished create_speech call looks like from outside: the HTTP
result (ok carries the FileResponse path, error the HTTPException detail),
the filesystem afterwards, the model-lock state afterwards, and which lanes
and converters actually ran. -/
structure Outcome where
  result : Except String String
  fs : List String
  lockHeld : Bool
  usedWarm : Bool
  usedCold : Bool
  convertInvoked : Bool
  ffmpegCmd : Option (List String)

/-- create_speech (lines 213-267) after request parsing: resolve the voice,
compute the cache key and final path; an existing final path is returned at
once (before the try/finally, so without any cleanup); otherwise synthesize
into a fresh temporary wav via the hot or cold lane, convert to the final
path, and in all cases run the finally-cleanup; exceptions become an
HTTPException carrying str(e).  `temp_name` is the uuid-based basename of
the temporary wav. -/
def create_speech (w : World) (req : SpeechRequest)
    (custom_wav_path : Option String) (temp_name : String) : Outcome :=
  let sv := computeVoice w custom_wav_path req.voice
  let speaker_wav := sv.1
  let voice_id := sv.2
  let final_output_path := finalOutputPath w req voice_id
  if w.fs.contains final_output_path then
    { result := Except.ok final_output_path, fs := w.fs,
      lockHeld := w.lockHeld, usedWarm := false, usedCold := false,
      convertInvoked := false, ffmpegCmd := none }
  else
    let temp_wav := pathJoin w.tmpDir temp_name
    let acquired := w.hotLoaded && (tryAcquire w.lockHeld).1
    let lockDuring := if w.hotLoaded then (tryAcquire w.lockHeld).2 else w.lockHeld
    let lockAfter := if acquired then false else lockDuring
    let t := tryBody w req speaker_wav temp_wav final_output_path
    let fsc := cleanup w t.fs temp_wav custom_wav_path
    { result := match t.res with
        | Except.ok _ => Except.ok final_output_path
        | Except.error e => Except.error e,
      fs := fsc, lockHeld := lockAfter, usedWarm := t.usedWarm,
      usedCold := t.usedCold, convertInvoked := t.convertInvoked,
      ffmpegCmd := t.ffmpegCmd }

/-! Interleaving model for the concurrency claims: two cache-miss requests
running against the shared model_lock.  Each request performs the dispatch
of create_speech lines 251-254: a non-blocking acquire attempt that routes
it into the warm-lane synthesis call (holding the lock until the finally
releases it, on success or failure) or into the cold lane. -/

/-- Position of one request in the dispatch: before the lane decision,
inside the warm-lane synthesis call (lock held), inside the cold lane, or
finished. -/
inductive PC where
  | start
  | inWarm
  | inCold
  | done
deriving DecidableEq, Fintype

/-- Joint state of the shared model_lock and two in-flight requests. -/
structure SysState where
  lock : Bool
  pc1 : PC
  pc2 : PC
deriving DecidableEq, Fintype

/-- One dispatch step of request 1: at `start` it evaluates
`tts_hot_worker and model_lock.acquire(blocking=False)` and enters the warm
lane iff the hot worker is loaded and the non-blocking acquire returned
true, else the cold lane; leaving the warm lane releases the lock (finally:
model_lock.release(), on success or failure of the synthesis call). -/
def step1 (hot : Bool) (s : SysState) : SysState :=
  match s.pc1 with
  | PC.start =>
    let a := tryAcquire s.lock
    if hot && a.1 then { s with lock := a.2, pc1 := PC.inWarm }
    else { s with pc1 := PC.inCold }
  | PC.inWarm => { s with lock := false, pc1 := PC.done }
  | PC.inCold => { s with pc1 := PC.done }
  | PC.done => s

/-- One dispatch step of request 2 (symmetric to `step1`). -/
def step2 (hot : Bool) (s : SysState) : SysState :=
  match s.pc2 with
  | PC.start =>
    let a := tryAcquire s.lock
    if hot && a.1 then { s with lock := a.2, pc2 := PC.inWarm }
    else { s with pc2 := PC.inCold }
  | PC.inWarm => { s with lock := false, pc2 := PC.done }
  | PC.inCold => { s with pc2 := PC.done }
  | PC.done => s

/-- All states an arbitrary interleaving of the two requests can reach from
the initial state (lock free, both requests dispatched but not yet routed). -/
inductive Reachable (hot : Bool) : SysState → Prop where
  | init : Reachable hot { lock := false, pc1 := PC.start, pc2 := PC.start }
  | fst : ∀ s, Reachable hot s → Reachable hot (step1 hot s)
  | snd : ∀ s, Reachable hot s → Reachable hot (step2 hot s)

/-- The inductive lock invariant: a request inside the warm-lane call holds
the lock, and the two requests are never both inside it. -/
def SysInv (s : SysState) : Prop :=
  (s.pc1 = PC.inWarm → s.lock = true) ∧ (s.pc2 = PC.inWarm → s.lock = true)
  ∧ ¬(s.pc1 = PC.inWarm ∧ s.pc2 = PC.inWarm)

instance : DecidablePred SysInv := fun s => by
  unfold SysInv
  infer_instance

/-- A concrete deployment environment used to instantiate the theorems on
closed inputs: empty cache, no hot worker, all external calls succeeding. -/
def sampleWorld : World :=
  { fs := [], hotLoaded := false, lockHeld := false, modelName := "m",
    voiceAssetDir := "va", audioCacheDir := "cache", modelCacheDir := "mc",
    tmpDir := "tmp", venvPython := "py", ttsScript := "tts",
    osEnv := fun _ => none, warmOk := true, warmErr := "warm boom",
    coldExit := 0, coldStderr := "", ffmpegExit := 0, ffmpegStderr := "",
    ffmpegWroteOutput := false, removeRaises := false }

/-- A concrete request used to instantiate the theorems on closed inputs. -/
def sampleReq : SpeechRequest := { input := "hi", voice := "alloy" }

/-- The sample environment with a transcoder that exits nonzero after
having created its output file. -/
def sampleWorldFfmpegFail : World :=
  { sampleWorld with ffmpegExit := 1, ffmpegWroteOutput := true }

/-- The sample environment holding an ephemeral uploaded reference
(up.wav) plus an already-cached artifact for the very key that upload
produces, so the request hits the cache. -/
def sampleWorldHitUpload : World :=
  { sampleWorld with fs := ["cache/hiup.wav1.0mp3enm.mp3", "up.wav"] }

/-- The sample environment holding only an ephemeral uploaded reference
(up.wav), so a request using it misses the cache. -/
def sampleWorldUpload : World := { sampleWorld with fs := ["up.wav"] }

/-! ### Helper lemmas -/

theorem contains_true_iff (l : List String) (a : String) :
    l.contains a = true ↔ a ∈ l :=
  List.elem_iff

theorem contains_false_iff (l : List String) (a : String) :
    l.contains a = false ↔ a ∉ l := by
  constructor
  · intro h hm
    rw [(contains_true_iff l a).mpr hm] at h
    cases h
  · intro h
    cases hc : l.contains a
    · rfl
    · exact absurd ((contains_true_iff l a).mp hc) h

theorem removeIfExists_not_mem {l : List String} {q : String} (b : Bool)
    (p : String) (h : q ∉ l) : q ∉ removeIfExists b l p := by
  unfold removeIfExists
  split
  · split
    · exact h
    · exact fun hm => h (List.mem_of_mem_erase hm)
  · exact h

theorem removeIfExists_self {l : List String} (p : String) (h : l.Nodup) :
    p ∉ removeIfExists false l p := by
  unfold removeIfExists
  split
  · simp only [Bool.false_eq_true, if_false]
    exact fun hm => ((h.mem_erase_iff).mp hm).1 rfl
  · next hc => exact fun hm => hc ((contains_true_iff l p).mpr hm)

theorem removeIfExists_nodup {l : List String} (b : Bool) (p : String)
    (h : l.Nodup) : (removeIfExists b l p).Nodup := by
  unfold removeIfExists
  split
  · split
    · exact h
    · exact h.erase p
  · exact h

theorem cleanup_temp_not_mem {w : World} {fs : List String} {temp : String}
    (custom : Option String) (hrm : w.removeRaises = false)
    (hnd : fs.Nodup) : temp ∉ cleanup w fs temp custom := by
  unfold cleanup
  rw [hrm]
  cases custom with
  | none => exact removeIfExists_self temp hnd
  | some p => exact removeIfExists_not_mem false p (removeIfExists_self temp hnd)

theorem cleanup_custom_not_mem {w : World} {fs : List String}
    {temp p : String} (hrm : w.removeRaises = false) (hnd : fs.Nodup) :
    p ∉ cleanup w fs temp (some p) := by
  unfold cleanup
  rw [hrm]
  exact removeIfExists_self p (removeIfExists_nodup false temp hnd)

theorem cleanup_not_mem {w : World} {fs : List String} {temp q : String}
    (custom : Option String) (h : q ∉ fs) : q ∉ cleanup w fs temp custom := by
  unfold cleanup
  cases custom with
  | none => exact removeIfExists_not_mem _ _ h
  | some p =>
    exact removeIfExists_not_mem _ _ (removeIfExists_not_mem _ _ h)

theorem sysInv_step1 : ∀ (hot : Bool) (s : SysState),
    SysInv s → SysInv (step1 hot s) := by decide

theorem sysInv_step2 : ∀ (hot : Bool) (s : SysState),
    SysInv s → SysInv (step2 hot s) := by decide

theorem sysInv_reachable (hot : Bool) (s : SysState)
    (h : Reachable hot s) : SysInv s := by
  induction h with
  | init => decide
  | fst s _ ih => exact sysInv_step1 hot s ih
  | snd s _ ih => exact sysInv_step2 hot s ih

theorem step2_busy : ∀ (hot : Bool) (s : SysState), s.lock = true →
    s.pc2 = PC.start → (step2 hot s).pc2 = PC.inCold ∧
      (tryAcquire s.lock).1 = false := by decide

/-! ### Claim theorems -/

/-- C4: in every interleaving of two concurrently dispatched cache-miss
requests, at most one is inside the warm-lane synthesis call at any
instant; and a request taking its routing step while the lock is held
observes the non-blocking acquire return false and is routed to the cold
lane. -/
theorem warm_lane_mutual_exclusion (hot : Bool) (s : SysState)
    (h : Reachable hot s) :
    (¬(s.pc1 = PC.inWarm ∧ s.pc2 = PC.inWarm))
    ∧ (s.lock = true → s.pc2 = PC.start →
        (tryAcquire s.lock).1 = false ∧ (step2 hot s).pc2 = PC.inCold) :=
  ⟨(sysInv_reachable hot s h).2.2,
   fun hl hp => ⟨(step2_busy hot s hl hp).2, (step2_busy hot s hl hp).1⟩⟩

/-- Witness for C4: after request 1 of a pair routes warm from the initial
state, the reachable state has request 1 (and only it) inside the warm
lane, and request 2's routing step from there goes cold. -/
theorem warm_lane_mutual_exclusion_witness :
    (¬((step1 true { lock := false, pc1 := PC.start, pc2 := PC.start }).pc1
          = PC.inWarm
       ∧ (step1 true { lock := false, pc1 := PC.start, pc2 := PC.start }).pc2
          = PC.inWarm))
    ∧ ((step1 true { lock := false, pc1 := PC.start, pc2 := PC.start }).lock
          = true →
       (step1 true { lock := false, pc1 := PC.start, pc2 := PC.start }).pc2
          = PC.start →
        (tryAcquire (step1 true
            { lock := false, pc1 := PC.start, pc2 := PC.start }).lock).1
          = false
        ∧ (step2 true (step1 true
            { lock := false, pc1 := PC.start, pc2 := PC.start })).pc2
          = PC.inCold) :=
  warm_lane_mutual_exclusion true _ (Reachable.fst _ Reachable.init)

/-- C5: create_speech restores the model-lock state on every exit path —
cache hit, warm success, warm synthesis failure (the scoped finally still
releases), cold lane, conversion failure — so a request that acquired the
lock always leaves it free again. -/
theorem lock_restored_on_all_paths (w : World) (req : SpeechRequest)
    (custom_wav_path : Option String) (temp_name : String) :
    (create_speech w req custom_wav_path temp_name).lockHeld = w.lockHeld := by
  unfold create_speech
  by_cases hc : w.fs.contains
      (finalOutputPath w req (computeVoice w custom_wav_path req.voice).2) = true
  · simp only [hc, if_true]
  · simp only [Bool.not_eq_true] at hc
    simp only [hc, Bool.false_eq_true, if_false]
    cases hh : w.hotLoaded <;> cases hl : w.lockHeld <;>
      simp [tryAcquire, hh, hl]

theorem tryBody_usedWarm (w : World) (req : SpeechRequest)
    (sw tw fo : String) :
    (tryBody w req sw tw fo).usedWarm
      = (w.hotLoaded && (tryAcquire w.lockHeld).1)
    ∧ (tryBody w req sw tw fo).usedCold
      = !(w.hotLoaded && (tryAcquire w.lockHeld).1) := by
  unfold tryBody run_tts_cold_lane
  cases hacq : (w.hotLoaded && (tryAcquire w.lockHeld).1) <;>
    cases hwk : w.warmOk <;>
    by_cases hce : w.coldExit = 0 <;>
    simp [hacq, hwk, hce]

/-- C3: every cache-miss request is dispatched immediately and exactly
once: it runs on the warm lane precisely when the hot worker is loaded and
the non-blocking lock acquisition succeeds, and on the cold lane in every
other case (lock busy or hot worker absent) — never queued, never
rejected. -/
theorem overflow_routing (w : World) (req : SpeechRequest)
    (custom : Option String) (tn : String)
    (hmiss : w.fs.contains
      (finalOutputPath w req (computeVoice w custom req.voice).2) = false) :
    ((create_speech w req custom tn).usedWarm
       = (w.hotLoaded && (tryAcquire w.lockHeld).1))
    ∧ ((create_speech w req custom tn).usedCold
       = !(w.hotLoaded && (tryAcquire w.lockHeld).1)) := by
  unfold create_speech
  simp only [hmiss, Bool.false_eq_true, if_false]
  exact tryBody_usedWarm w req _ _ _

/-- Witness for C3: on an empty cache with no hot worker loaded the sample
request misses the cache and is routed to the cold lane. -/
theorem overflow_routing_witness :
    ((create_speech sampleWorld sampleReq none "t.wav").usedWarm
       = (sampleWorld.hotLoaded && (tryAcquire sampleWorld.lockHeld).1))
    ∧ ((create_speech sampleWorld sampleReq none "t.wav").usedCold
       = !(sampleWorld.hotLoaded && (tryAcquire sampleWorld.lockHeld).1)) :=
  overflow_routing sampleWorld sampleReq none "t.wav" (by decide)

theorem computeVoice_snd_none (w : World) (v : String) :
    (computeVoice w none v).2 = strLower v := by
  unfold computeVoice
  dsimp only
  split <;> rfl

/-- C1: requests with identical text, voice identity, speed, output format,
language and active model compute identical cache keys; and a request whose
key already has a cached artifact is answered with that artifact at once —
filesystem untouched, warm lane, cold lane and converter all uninvoked. -/
theorem cache_key_deterministic_and_hit_short_circuits
    (w : World) (r1 r2 : SpeechRequest) (custom : Option String) (tn : String)
    (hin : r1.input = r2.input)
    (hv : strLower r1.voice = strLower r2.voice)
    (hs : r1.speed = r2.speed)
    (hf : r1.response_format = r2.response_format)
    (hl : r1.language = r2.language)
    (hhit : w.fs.contains
      (finalOutputPath w r1 (computeVoice w custom r1.voice).2) = true) :
    (cacheKeyOf w r1 (computeVoice w none r1.voice).2
       = cacheKeyOf w r2 (computeVoice w none r2.voice).2)
    ∧ (create_speech w r1 custom tn).result
        = Except.ok (finalOutputPath w r1 (computeVoice w custom r1.voice).2)
    ∧ (create_speech w r1 custom tn).fs = w.fs
    ∧ (create_speech w r1 custom tn).usedWarm = false
    ∧ (create_speech w r1 custom tn).usedCold = false
    ∧ (create_speech w r1 custom tn).convertInvoked = false := by
  constructor
  · rw [computeVoice_snd_none, computeVoice_snd_none]
    unfold cacheKeyOf md5Hex
    rw [hin, hv, hs, hf, hl]
  · unfold create_speech
    simp only [hhit, if_true]
    simp

/-- Witness for C1: two sample requests sharing all key fields, against a
world whose cache already holds the keyed artifact. -/
theorem cache_key_deterministic_and_hit_short_circuits_witness :
    (cacheKeyOf { sampleWorld with fs := ["cache/hialloy1.0mp3enm.mp3"] }
        sampleReq
        (computeVoice { sampleWorld with fs := ["cache/hialloy1.0mp3enm.mp3"] }
          none sampleReq.voice).2
       = cacheKeyOf { sampleWorld with fs := ["cache/hialloy1.0mp3enm.mp3"] }
          { sampleReq with voice := "ALLOY" }
          (computeVoice
            { sampleWorld with fs := ["cache/hialloy1.0mp3enm.mp3"] }
            none ({ sampleReq with voice := "ALLOY" } : SpeechRequest).voice).2)
    ∧ (create_speech { sampleWorld with fs := ["cache/hialloy1.0mp3enm.mp3"] }
        sampleReq none "t.wav").result
        = Except.ok (finalOutputPath
            { sampleWorld with fs := ["cache/hialloy1.0mp3enm.mp3"] } sampleReq
            (computeVoice { sampleWorld with fs := ["cache/hialloy1.0mp3enm.mp3"] }
              none sampleReq.voice).2)
    ∧ (create_speech { sampleWorld with fs := ["cache/hialloy1.0mp3enm.mp3"] }
        sampleReq none "t.wav").fs
        = ({ sampleWorld with fs := ["cache/hialloy1.0mp3enm.mp3"] } : World).fs
    ∧ (create_speech { sampleWorld with fs := ["cache/hialloy1.0mp3enm.mp3"] }
        sampleReq none "t.wav").usedWarm = false
    ∧ (create_speech { sampleWorld with fs := ["cache/hialloy1.0mp3enm.mp3"] }
        sampleReq none "t.wav").usedCold = false
    ∧ (create_speech { sampleWorld with fs := ["cache/hialloy1.0mp3enm.mp3"] }
        sampleReq none "t.wav").convertInvoked = false :=
  cache_key_deterministic_and_hit_short_circuits
    { sampleWorld with fs := ["cache/hialloy1.0mp3enm.mp3"] }
    sampleReq { sampleReq with voice := "ALLOY" } none "t.wav"
    rfl (by decide) rfl rfl rfl (by decide)

/-- C7: voice resolution is case-insensitive (it depends only on the
lowercased identifier), the alloy default maps to the standard alloy
reference, an unknown identifier resolves to the default alloy reference
path, and a voice whose mapped reference file is missing on disk also
falls back to the alloy reference path — resolution is a total function
that never fails. -/
theorem voice_fallback_resolution (w : World) (v1 v2 u m : String)
    (hcase : strLower v1 = strLower v2)
    (hunknown : VOICE_MAP.lookup (strLower u) = none)
    (hmissing : w.fs.contains (pathJoin w.voiceAssetDir
        ((VOICE_MAP.lookup (strLower m)).getD "standard/alloy.wav")) = false) :
    (computeVoice w none v1 = computeVoice w none v2)
    ∧ (VOICE_MAP.lookup "alloy" = some "standard/alloy.wav")
    ∧ ((computeVoice w none u).1
        = pathJoin w.voiceAssetDir "standard/alloy.wav")
    ∧ ((computeVoice w none m).1
        = pathJoin w.voiceAssetDir "standard/alloy.wav") := by
  refine ⟨?_, by decide, ?_, ?_⟩
  · unfold computeVoice
    rw [hcase]
  · unfold computeVoice
    dsimp only
    rw [hunknown]
    split <;> rfl
  · unfold computeVoice
    dsimp only
    simp only [hmissing, Bool.false_eq_true, if_false]

/-- Witness for C7: differently-cased spellings of alloy resolve alike, the
unknown identifier ghost resolves to the alloy reference, and on an empty
disk even the mapped alloy file falls back to the alloy reference path. -/
theorem voice_fallback_resolution_witness :
    (computeVoice sampleWorld none "Alloy" = computeVoice sampleWorld none "ALLOY")
    ∧ (VOICE_MAP.lookup "alloy" = some "standard/alloy.wav")
    ∧ ((computeVoice sampleWorld none "ghost").1
        = pathJoin sampleWorld.voiceAssetDir "standard/alloy.wav")
    ∧ ((computeVoice sampleWorld none "alloy").1
        = pathJoin sampleWorld.voiceAssetDir "standard/alloy.wav") :=
  voice_fallback_resolution sampleWorld "Alloy" "ALLOY" "ghost" "alloy"
    (by decide) (by decide) (by decide)

/-- C10: for two requests naming distinct voices whose mapped reference
files are missing on disk, both resolve to the identical default alloy
reference audio, yet each cache key is computed from the lowercased
requested identifier, so the two requests get distinct cache keys and
separately cached artifacts. -/
theorem missing_voice_key_distinction (w : World) (r1 r2 : SpeechRequest)
    (hne : strLower r1.voice ≠ strLower r2.voice)
    (h1 : w.fs.contains (pathJoin w.voiceAssetDir
        ((VOICE_MAP.lookup (strLower r1.voice)).getD "standard/alloy.wav"))
        = false)
    (h2 : w.fs.contains (pathJoin w.voiceAssetDir
        ((VOICE_MAP.lookup (strLower r2.voice)).getD "standard/alloy.wav"))
        = false)
    (hin : r1.input = r2.input) (hs : r1.speed = r2.speed)
    (hf : r1.response_format = r2.response_format)
    (hl : r1.language = r2.language) :
    ((computeVoice w none r1.voice).1
       = pathJoin w.voiceAssetDir "standard/alloy.wav")
    ∧ ((computeVoice w none r2.voice).1
       = pathJoin w.voiceAssetDir "standard/alloy.wav")
    ∧ ((computeVoice w none r1.voice).2 = strLower r1.voice)
    ∧ ((computeVoice w none r2.voice).2 = strLower r2.voice)
    ∧ cacheKeyOf w r1 (computeVoice w none r1.voice).2
        ≠ cacheKeyOf w r2 (computeVoice w none r2.voice).2 := by
  refine ⟨?_, ?_, computeVoice_snd_none w r1.voice,
    computeVoice_snd_none w r2.voice, ?_⟩
  · unfold computeVoice
    dsimp only
    simp only [h1, Bool.false_eq_true, if_false]
  · unfold computeVoice
    dsimp only
    simp only [h2, Bool.false_eq_true, if_false]
  · rw [computeVoice_snd_none, computeVoice_snd_none]
    unfold cacheKeyOf md5Hex
    rw [hin, hs, hf, hl]
    intro heq
    apply hne
    apply String.ext
    have hd := congrArg String.data heq
    simp only [String.data_append] at hd
    exact List.append_cancel_left
      (List.append_cancel_right (List.append_cancel_right
        (List.append_cancel_right (List.append_cancel_right hd))))

/-- Witness for C10: the unknown voices ghosta and ghostb on an empty disk
both resolve to the alloy reference but key to distinct cache entries. -/
theorem missing_voice_key_distinction_witness :
    ((computeVoice sampleWorld none
        ({ sampleReq with voice := "ghosta" } : SpeechRequest).voice).1
       = pathJoin sampleWorld.voiceAssetDir "standard/alloy.wav")
    ∧ ((computeVoice sampleWorld none
        ({ sampleReq with voice := "ghostb" } : SpeechRequest).voice).1
       = pathJoin sampleWorld.voiceAssetDir "standard/alloy.wav")
    ∧ ((computeVoice sampleWorld none
        ({ sampleReq with voice := "ghosta" } : SpeechRequest).voice).2
       = strLower ({ sampleReq with voice := "ghosta" } : SpeechRequest).voice)
    ∧ ((computeVoice sampleWorld none
        ({ sampleReq with voice := "ghostb" } : SpeechRequest).voice).2
       = strLower ({ sampleReq with voice := "ghostb" } : SpeechRequest).voice)
    ∧ cacheKeyOf sampleWorld { sampleReq with voice := "ghosta" }
        (computeVoice sampleWorld none
          ({ sampleReq with voice := "ghosta" } : SpeechRequest).voice).2
        ≠ cacheKeyOf sampleWorld { sampleReq with voice := "ghostb" }
            (computeVoice sampleWorld none
              ({ sampleReq with voice := "ghostb" } : SpeechRequest).voice).2 :=
  missing_voice_key_distinction sampleWorld
    { sampleReq with voice := "ghosta" } { sampleReq with voice := "ghostb" }
    (by decide) (by decide) (by decide) rfl rfl rfl rfl

/-- C9: the conversion step dispatches on the requested format: wav is a
pure file copy with no codec invocation, mp3 invokes libmp3lame at qscale
2, opus invokes libopus at a 64k bitrate, flac invokes the lossless flac
codec; and the artifact is cached at audio_cache_dir/cache_key.format. -/
theorem transcode_dispatch_by_format (fs : List String) (i o se : String)
    (e : Nat) (wr : Bool) (w : World) (req : SpeechRequest) (vid : String)
    (hi : fs.contains i = true) :
    ((convert_audio fs i o "wav" e se wr).res = Except.ok ()
      ∧ (convert_audio fs i o "wav" e se wr).fs = o :: fs
      ∧ (convert_audio fs i o "wav" e se wr).ffmpegCmd = none)
    ∧ (convert_audio fs i o "mp3" e se wr).ffmpegCmd
        = some ["ffmpeg", "-y", "-i", i, "-codec:a", "libmp3lame",
                "-qscale:a", "2", o]
    ∧ (convert_audio fs i o "opus" e se wr).ffmpegCmd
        = some ["ffmpeg", "-y", "-i", i, "-codec:a", "libopus",
                "-b:a", "64k", o]
    ∧ (convert_audio fs i o "flac" e se wr).ffmpegCmd
        = some ["ffmpeg", "-y", "-i", i, "-codec:a", "flac", o]
    ∧ finalOutputPath w req vid
        = w.audioCacheDir ++ "/"
            ++ (cacheKeyOf w req vid ++ "." ++ req.response_format) := by
  refine ⟨⟨rfl, rfl, rfl⟩, ?_, ?_, ?_, rfl⟩ <;>
    · unfold convert_audio convertCmd
      simp only [hi]
      split <;> simp_all <;> split <;> rfl

/-- Witness for C9: a concrete conversion with the input wav present. -/
theorem transcode_dispatch_by_format_witness :
    ((convert_audio ["in.wav"] "in.wav" "out" "wav" 0 "" false).res
        = Except.ok ()
      ∧ (convert_audio ["in.wav"] "in.wav" "out" "wav" 0 "" false).fs
        = "out" :: ["in.wav"]
      ∧ (convert_audio ["in.wav"] "in.wav" "out" "wav" 0 "" false).ffmpegCmd
        = none)
    ∧ (convert_audio ["in.wav"] "in.wav" "out" "mp3" 0 "" false).ffmpegCmd
        = some ["ffmpeg", "-y", "-i", "in.wav", "-codec:a", "libmp3lame",
                "-qscale:a", "2", "out"]
    ∧ (convert_audio ["in.wav"] "in.wav" "out" "opus" 0 "" false).ffmpegCmd
        = some ["ffmpeg", "-y", "-i", "in.wav", "-codec:a", "libopus",
                "-b:a", "64k", "out"]
    ∧ (convert_audio ["in.wav"] "in.wav" "out" "flac" 0 "" false).ffmpegCmd
        = some ["ffmpeg", "-y", "-i", "in.wav", "-codec:a", "flac", "out"]
    ∧ finalOutputPath sampleWorld sampleReq "alloy"
        = sampleWorld.audioCacheDir ++ "/"
            ++ (cacheKeyOf sampleWorld sampleReq "alloy" ++ "."
                ++ sampleReq.response_format) :=
  transcode_dispatch_by_format ["in.wav"] "in.wav" "out" "" 0 false
    sampleWorld sampleReq "alloy" (by decide)

theorem tryBody_cold_fail (w : World) (req : SpeechRequest)
    (sw tw fo : String)
    (hroute : (w.hotLoaded && (tryAcquire w.lockHeld).1) = false)
    (hexit : w.coldExit ≠ 0) :
    (tryBody w req sw tw fo).res
      = Except.error ("Cold Lane Subprocess failed: " ++ w.coldStderr)
    ∧ (tryBody w req sw tw fo).fs = w.fs
    ∧ (tryBody w req sw tw fo).usedCold = true := by
  unfold tryBody run_tts_cold_lane
  simp only [hroute, Bool.false_eq_true, if_false]
  simp [hexit]

/-- C8: the cold lane spawns the worker with COQUI_TOS_AGREED forced to 1
in its environment and with its output streams captured; a nonzero worker
exit makes the request fail with an error carrying the captured stderr,
surfaced directly with no retry, and no cache entry appears for the key. -/
theorem cold_lane_consent_and_failure (w : World) (req : SpeechRequest)
    (tn text lang sw op : String)
    (hmiss : w.fs.contains
      (finalOutputPath w req (computeVoice w none req.voice).2) = false)
    (hroute : (w.hotLoaded && (tryAcquire w.lockHeld).1) = false)
    (hexit : w.coldExit ≠ 0) :
    ((run_tts_cold_lane w text lang sw op).1.env "COQUI_TOS_AGREED"
        = some "1")
    ∧ ((run_tts_cold_lane w text lang sw op).1.captureOutput = true)
    ∧ ((run_tts_cold_lane w text lang sw op).2.1
        = Except.error ("Cold Lane Subprocess failed: " ++ w.coldStderr))
    ∧ ((create_speech w req none tn).result
        = Except.error ("Cold Lane Subprocess failed: " ++ w.coldStderr))
    ∧ ((create_speech w req none tn).usedCold = true)
    ∧ ((create_speech w req none tn).fs.contains
        (finalOutputPath w req (computeVoice w none req.voice).2) = false) := by
  have ht := tryBody_cold_fail w req (computeVoice w none req.voice).1
    (pathJoin w.tmpDir tn) (finalOutputPath w req (computeVoice w none req.voice).2)
    hroute hexit
  refine ⟨?_, ?_, ?_, ?_, ?_, ?_⟩
  · unfold run_tts_cold_lane
    split <;> rfl
  · unfold run_tts_cold_lane
    split <;> rfl
  · unfold run_tts_cold_lane
    simp [hexit]
  · unfold create_speech
    simp only [hmiss, Bool.false_eq_true, if_false]
    rw [ht.1]
  · unfold create_speech
    simp only [hmiss, Bool.false_eq_true, if_false]
    exact ht.2.2
  · unfold create_speech
    simp only [hmiss, Bool.false_eq_true, if_false]
    rw [ht.2.1]
    exact (contains_false_iff _ _).mpr
      (cleanup_not_mem none ((contains_false_iff _ _).mp hmiss))

/-- Witness for C8: a nonzero cold-lane exit on an empty cache with no hot
worker loaded. -/
theorem cold_lane_consent_and_failure_witness :
    ((run_tts_cold_lane { sampleWorld with coldExit := 1, coldStderr := "err" }
        "hi" "en" "va/standard/alloy.wav" "tmp/t.wav").1.env
        "COQUI_TOS_AGREED" = some "1")
    ∧ ((run_tts_cold_lane { sampleWorld with coldExit := 1, coldStderr := "err" }
        "hi" "en" "va/standard/alloy.wav" "tmp/t.wav").1.captureOutput = true)
    ∧ ((run_tts_cold_lane { sampleWorld with coldExit := 1, coldStderr := "err" }
        "hi" "en" "va/standard/alloy.wav" "tmp/t.wav").2.1
        = Except.error ("Cold Lane Subprocess failed: " ++
            ({ sampleWorld with coldExit := 1, coldStderr := "err" } : World).coldStderr))
    ∧ ((create_speech { sampleWorld with coldExit := 1, coldStderr := "err" }
        sampleReq none "t.wav").result
        = Except.error ("Cold Lane Subprocess failed: " ++
            ({ sampleWorld with coldExit := 1, coldStderr := "err" } : World).coldStderr))
    ∧ ((create_speech { sampleWorld with coldExit := 1, coldStderr := "err" }
        sampleReq none "t.wav").usedCold = true)
    ∧ ((create_speech { sampleWorld with coldExit := 1, coldStderr := "err" }
        sampleReq none "t.wav").fs.contains
        (finalOutputPath { sampleWorld with coldExit := 1, coldStderr := "err" }
          sampleReq
          (computeVoice { sampleWorld with coldExit := 1, coldStderr := "err" }
            none sampleReq.voice).2) = false) :=
  cold_lane_consent_and_failure
    { sampleWorld with coldExit := 1, coldStderr := "err" } sampleReq
    "t.wav" "hi" "en" "va/standard/alloy.wav" "tmp/t.wav"
    (by decide) (by decide) (by decide)

theorem convertCmd_getLast (i o fmt : String) :
    (convertCmd i o fmt).getLast? = some o := by
  unfold convertCmd
  exact List.getLast?_concat _

theorem convert_audio_ffmpegCmd_eq (fs : List String) (i o fmt se : String)
    (e : Nat) (wr : Bool) (c : List String)
    (h : (convert_audio fs i o fmt e se wr).ffmpegCmd = some c) :
    c = convertCmd i o fmt := by
  unfold convert_audio at h
  split at h
  · cases h
  · split at h
    · cases h
    · split at h
      · cases h; rfl
      · cases h; rfl

theorem tryBody_warm_fail (w : World) (req : SpeechRequest)
    (sw tw fo : String)
    (hacq : (w.hotLoaded && (tryAcquire w.lockHeld).1) = true)
    (hwk : w.warmOk = false) :
    (tryBody w req sw tw fo).res = Except.error w.warmErr
    ∧ (tryBody w req sw tw fo).fs = w.fs
    ∧ (tryBody w req sw tw fo).usedWarm = true := by
  unfold tryBody
  simp [hacq, hwk]

theorem tryBody_warm_ok (w : World) (req : SpeechRequest) (sw tw fo : String)
    (hacq : (w.hotLoaded && (tryAcquire w.lockHeld).1) = true)
    (hwk : w.warmOk = true) :
    (tryBody w req sw tw fo).res
      = (convert_audio (tw :: w.fs) tw fo req.response_format w.ffmpegExit
          w.ffmpegStderr w.ffmpegWroteOutput).res
    ∧ (tryBody w req sw tw fo).fs
      = (convert_audio (tw :: w.fs) tw fo req.response_format w.ffmpegExit
          w.ffmpegStderr w.ffmpegWroteOutput).fs
    ∧ (tryBody w req sw tw fo).ffmpegCmd
      = (convert_audio (tw :: w.fs) tw fo req.response_format w.ffmpegExit
          w.ffmpegStderr w.ffmpegWroteOutput).ffmpegCmd := by
  unfold tryBody
  simp [hacq, hwk]

theorem tryBody_cold_ok (w : World) (req : SpeechRequest) (sw tw fo : String)
    (hacq : (w.hotLoaded && (tryAcquire w.lockHeld).1) = false)
    (hce : w.coldExit = 0) :
    (tryBody w req sw tw fo).res
      = (convert_audio (tw :: w.fs) tw fo req.response_format w.ffmpegExit
          w.ffmpegStderr w.ffmpegWroteOutput).res
    ∧ (tryBody w req sw tw fo).fs
      = (convert_audio (tw :: w.fs) tw fo req.response_format w.ffmpegExit
          w.ffmpegStderr w.ffmpegWroteOutput).fs
    ∧ (tryBody w req sw tw fo).ffmpegCmd
      = (convert_audio (tw :: w.fs) tw fo req.response_format w.ffmpegExit
          w.ffmpegStderr w.ffmpegWroteOutput).ffmpegCmd := by
  unfold tryBody run_tts_cold_lane
  simp [hacq, hce]

theorem tryBody_ffmpegCmd_none_of_fail (w : World) (req : SpeechRequest)
    (sw tw fo : String) (c : List String)
    (h : (tryBody w req sw tw fo).ffmpegCmd = some c) :
    c = convertCmd tw fo req.response_format := by
  by_cases hacq : (w.hotLoaded && (tryAcquire w.lockHeld).1) = true
  · cases hwk : w.warmOk
    · unfold tryBody at h
      simp [hacq, hwk] at h
    · rw [(tryBody_warm_ok w req sw tw fo hacq hwk).2.2] at h
      exact convert_audio_ffmpegCmd_eq _ _ _ _ _ _ _ _ h
  · rw [Bool.not_eq_true] at hacq
    by_cases hce : w.coldExit = 0
    · rw [(tryBody_cold_ok w req sw tw fo hacq hce).2.2] at h
      exact convert_audio_ffmpegCmd_eq _ _ _ _ _ _ _ _ h
    · unfold tryBody run_tts_cold_lane at h
      simp [hacq, hce] at h

theorem convert_audio_fail (fs : List String) (i o fmt se : String)
    (e : Nat) (wr : Bool) (hfmt : fmt ≠ "wav") (hi : fs.contains i = true)
    (he : e ≠ 0) :
    (convert_audio fs i o fmt e se wr).res
      = Except.error ("FFmpeg failed (code " ++ toString e ++ "): " ++ se)
    ∧ (convert_audio fs i o fmt e se wr).fs
      = (if wr then o :: fs else fs) := by
  have hi' : i ∈ fs := (contains_true_iff fs i).mp hi
  unfold convert_audio
  simp [hfmt, hi', he]

theorem removeIfExists_mem_of_ne {l : List String} {p q : String} (b : Bool)
    (hne : q ≠ p) (h : q ∈ l) : q ∈ removeIfExists b l p := by
  unfold removeIfExists
  split
  · split
    · exact h
    · exact (List.mem_erase_of_ne hne).mpr h
  · exact h

theorem create_speech_fs_miss (w : World) (req : SpeechRequest)
    (custom : Option String) (tn : String)
    (hmiss : w.fs.contains
      (finalOutputPath w req (computeVoice w custom req.voice).2) = false) :
    (create_speech w req custom tn).fs
      = cleanup w
          (tryBody w req (computeVoice w custom req.voice).1
            (pathJoin w.tmpDir tn)
            (finalOutputPath w req (computeVoice w custom req.voice).2)).fs
          (pathJoin w.tmpDir tn) custom := by
  unfold create_speech
  simp only [hmiss, Bool.false_eq_true, if_false]

theorem create_speech_result_miss (w : World) (req : SpeechRequest)
    (custom : Option String) (tn : String)
    (hmiss : w.fs.contains
      (finalOutputPath w req (computeVoice w custom req.voice).2) = false) :
    (create_speech w req custom tn).result
      = match (tryBody w req (computeVoice w custom req.voice).1
            (pathJoin w.tmpDir tn)
            (finalOutputPath w req (computeVoice w custom req.voice).2)).res with
        | Except.ok _ => Except.ok
            (finalOutputPath w req (computeVoice w custom req.voice).2)
        | Except.error e => Except.error e := by
  unfold create_speech
  simp only [hmiss, Bool.false_eq_true, if_false]

theorem create_speech_ffmpegCmd_miss (w : World) (req : SpeechRequest)
    (custom : Option String) (tn : String)
    (hmiss : w.fs.contains
      (finalOutputPath w req (computeVoice w custom req.voice).2) = false) :
    (create_speech w req custom tn).ffmpegCmd
      = (tryBody w req (computeVoice w custom req.voice).1
          (pathJoin w.tmpDir tn)
          (finalOutputPath w req (computeVoice w custom req.voice).2)).ffmpegCmd := by
  unfold create_speech
  simp only [hmiss, Bool.false_eq_true, if_false]

/-- Counterexample to C2: with the cold lane synthesizing successfully and
ffmpeg exiting nonzero after having created its output file (behaviour the
server does not prevent, since the transcoder is handed the final keyed
path directly), the request fails with a transcoding error yet the keyed
cache path exists afterwards — a partial cache entry under that key. -/
theorem transcode_failure_stray_entry_cex :
    ((create_speech sampleWorldFfmpegFail sampleReq none "t.wav").result
      = Except.error ("FFmpeg failed (code 1): "))
    ∧ ((create_speech sampleWorldFfmpegFail sampleReq none "t.wav").fs.contains
        (finalOutputPath sampleWorldFfmpegFail sampleReq
          (computeVoice sampleWorldFfmpegFail none sampleReq.voice).2)
        = true) :=
  ⟨by rfl, by rfl⟩

/-- C2 (amended): a synthesis failure on either lane aborts the request
with no cache entry under the key, and the raw waveform only ever lives
under the private temporary name; but the transcoder is invoked directly
on the final keyed path (the codec command's output argument is that
path — there is no private-name-then-rename step for the artifact), so
after a transcoding failure a partial entry exists under the key exactly
when the external codec created its output file before failing. -/
theorem no_stray_entry_amended (w : World) (req : SpeechRequest)
    (tn : String)
    (hmiss : w.fs.contains
      (finalOutputPath w req (computeVoice w none req.voice).2) = false)
    (hTF : pathJoin w.tmpDir tn
      ≠ finalOutputPath w req (computeVoice w none req.voice).2) :
    ((w.hotLoaded && (tryAcquire w.lockHeld).1) = true → w.warmOk = false →
       (create_speech w req none tn).result = Except.error w.warmErr
       ∧ (create_speech w req none tn).fs.contains
           (finalOutputPath w req (computeVoice w none req.voice).2) = false)
    ∧ ((w.hotLoaded && (tryAcquire w.lockHeld).1) = false → w.coldExit ≠ 0 →
       (create_speech w req none tn).result
         = Except.error ("Cold Lane Subprocess failed: " ++ w.coldStderr)
       ∧ (create_speech w req none tn).fs.contains
           (finalOutputPath w req (computeVoice w none req.voice).2) = false)
    ∧ (∀ c, (create_speech w req none tn).ffmpegCmd = some c →
         c.getLast?
           = some (finalOutputPath w req (computeVoice w none req.voice).2))
    ∧ ((w.hotLoaded && (tryAcquire w.lockHeld).1) = false → w.coldExit = 0 →
       req.response_format ≠ "wav" → w.ffmpegExit ≠ 0 →
       w.removeRaises = false →
       (create_speech w req none tn).result
         = Except.error ("FFmpeg failed (code " ++ toString w.ffmpegExit
             ++ "): " ++ w.ffmpegStderr)
       ∧ (create_speech w req none tn).fs.contains
           (finalOutputPath w req (computeVoice w none req.voice).2)
           = w.ffmpegWroteOutput) := by
  refine ⟨?_, ?_, ?_, ?_⟩
  · intro hacq hwk
    have ht := tryBody_warm_fail w req (computeVoice w none req.voice).1
      (pathJoin w.tmpDir tn)
      (finalOutputPath w req (computeVoice w none req.voice).2) hacq hwk
    constructor
    · rw [create_speech_result_miss w req none tn hmiss, ht.1]
    · rw [create_speech_fs_miss w req none tn hmiss, ht.2.1]
      exact (contains_false_iff _ _).mpr
        (cleanup_not_mem none ((contains_false_iff _ _).mp hmiss))
  · intro hacq hce
    have ht := tryBody_cold_fail w req (computeVoice w none req.voice).1
      (pathJoin w.tmpDir tn)
      (finalOutputPath w req (computeVoice w none req.voice).2) hacq hce
    constructor
    · rw [create_speech_result_miss w req none tn hmiss, ht.1]
    · rw [create_speech_fs_miss w req none tn hmiss, ht.2.1]
      exact (contains_false_iff _ _).mpr
        (cleanup_not_mem none ((contains_false_iff _ _).mp hmiss))
  · intro c h
    rw [create_speech_ffmpegCmd_miss w req none tn hmiss] at h
    rw [tryBody_ffmpegCmd_none_of_fail w req _ _ _ c h]
    exact convertCmd_getLast _ _ _
  · intro hacq hce hfmt hfe hrm
    have htb := tryBody_cold_ok w req (computeVoice w none req.voice).1
      (pathJoin w.tmpDir tn)
      (finalOutputPath w req (computeVoice w none req.voice).2) hacq hce
    have hin : (pathJoin w.tmpDir tn :: w.fs).contains (pathJoin w.tmpDir tn)
        = true :=
      (contains_true_iff _ _).mpr (List.mem_cons_self _ _)
    have hcv := convert_audio_fail (pathJoin w.tmpDir tn :: w.fs)
      (pathJoin w.tmpDir tn)
      (finalOutputPath w req (computeVoice w none req.voice).2)
      req.response_format w.ffmpegStderr w.ffmpegExit w.ffmpegWroteOutput
      hfmt hin hfe
    constructor
    · rw [create_speech_result_miss w req none tn hmiss, htb.1, hcv.1]
    · rw [create_speech_fs_miss w req none tn hmiss, htb.2.1, hcv.2]
      have hclean : ∀ l : List String,
          cleanup w l (pathJoin w.tmpDir tn) none
            = removeIfExists w.removeRaises l (pathJoin w.tmpDir tn) :=
        fun l => rfl
      cases hwr : w.ffmpegWroteOutput
      · simp only [hwr, Bool.false_eq_true, if_false, hclean]
        exact (contains_false_iff _ _).mpr
          (removeIfExists_not_mem _ _ (fun hm => by
            rcases List.mem_cons.mp hm with h1 | h1
            · exact hTF.symm h1
            · exact (contains_false_iff _ _).mp hmiss h1))
      · simp only [hwr, if_true, hclean, hrm]
        exact (contains_true_iff _ _).mpr
          (removeIfExists_mem_of_ne false (fun h => hTF h.symm)
            (List.mem_cons_self _ _))

/-- Witness for C2 (amended): the sample world with a failing codec that
left its output behind, on an empty cache. -/
theorem no_stray_entry_amended_witness :
    ((sampleWorldFfmpegFail.hotLoaded
        && (tryAcquire sampleWorldFfmpegFail.lockHeld).1) = true →
       sampleWorldFfmpegFail.warmOk = false →
       (create_speech sampleWorldFfmpegFail sampleReq none "t.wav").result
         = Except.error sampleWorldFfmpegFail.warmErr
       ∧ (create_speech sampleWorldFfmpegFail sampleReq
            none "t.wav").fs.contains
           (finalOutputPath sampleWorldFfmpegFail sampleReq
             (computeVoice sampleWorldFfmpegFail none sampleReq.voice).2)
           = false)
    ∧ ((sampleWorldFfmpegFail.hotLoaded
        && (tryAcquire sampleWorldFfmpegFail.lockHeld).1) = false →
       sampleWorldFfmpegFail.coldExit ≠ 0 →
       (create_speech sampleWorldFfmpegFail sampleReq none "t.wav").result
         = Except.error ("Cold Lane Subprocess failed: "
             ++ sampleWorldFfmpegFail.coldStderr)
       ∧ (create_speech sampleWorldFfmpegFail sampleReq
            none "t.wav").fs.contains
           (finalOutputPath sampleWorldFfmpegFail sampleReq
             (computeVoice sampleWorldFfmpegFail none sampleReq.voice).2)
           = false)
    ∧ (∀ c, (create_speech sampleWorldFfmpegFail sampleReq
          none "t.wav").ffmpegCmd = some c →
         c.getLast? = some (finalOutputPath sampleWorldFfmpegFail sampleReq
           (computeVoice sampleWorldFfmpegFail none sampleReq.voice).2))
    ∧ ((sampleWorldFfmpegFail.hotLoaded
        && (tryAcquire sampleWorldFfmpegFail.lockHeld).1) = false →
       sampleWorldFfmpegFail.coldExit = 0 →
       sampleReq.response_format ≠ "wav" →
       sampleWorldFfmpegFail.ffmpegExit ≠ 0 →
       sampleWorldFfmpegFail.removeRaises = false →
       (create_speech sampleWorldFfmpegFail sampleReq none "t.wav").result
         = Except.error ("FFmpeg failed (code "
             ++ toString sampleWorldFfmpegFail.ffmpegExit ++ "): "
             ++ sampleWorldFfmpegFail.ffmpegStderr)
       ∧ (create_speech sampleWorldFfmpegFail sampleReq
            none "t.wav").fs.contains
           (finalOutputPath sampleWorldFfmpegFail sampleReq
             (computeVoice sampleWorldFfmpegFail none sampleReq.voice).2)
           = sampleWorldFfmpegFail.ffmpegWroteOutput) :=
  no_stray_entry_amended sampleWorldFfmpegFail sampleReq "t.wav"
    (by decide) (by decide)


theorem convert_audio_fs_cases (fs : List String) (i o fmt se : String)
    (e : Nat) (wr : Bool) :
    (convert_audio fs i o fmt e se wr).fs = fs
    ∨ (convert_audio fs i o fmt e se wr).fs = o :: fs := by
  unfold convert_audio
  split
  · exact Or.inr rfl
  · split
    · exact Or.inl rfl
    · split
      · cases wr
        · exact Or.inl rfl
        · exact Or.inr rfl
      · exact Or.inr rfl

theorem tryBody_fs_cases (w : World) (req : SpeechRequest) (sw tw fo : String) :
    (tryBody w req sw tw fo).fs = w.fs
    ∨ (tryBody w req sw tw fo).fs = tw :: w.fs
    ∨ (tryBody w req sw tw fo).fs = fo :: tw :: w.fs := by
  by_cases hacq : (w.hotLoaded && (tryAcquire w.lockHeld).1) = true
  · cases hwk : w.warmOk
    · exact Or.inl (tryBody_warm_fail w req sw tw fo hacq hwk).2.1
    · have h := (tryBody_warm_ok w req sw tw fo hacq hwk).2.1
      rcases convert_audio_fs_cases (tw :: w.fs) tw fo
          req.response_format w.ffmpegStderr w.ffmpegExit
          w.ffmpegWroteOutput with hd | hd
      · exact Or.inr (Or.inl (h.trans hd))
      · exact Or.inr (Or.inr (h.trans hd))
  · rw [Bool.not_eq_true] at hacq
    by_cases hce : w.coldExit = 0
    · have h := (tryBody_cold_ok w req sw tw fo hacq hce).2.1
      rcases convert_audio_fs_cases (tw :: w.fs) tw fo
          req.response_format w.ffmpegStderr w.ffmpegExit
          w.ffmpegWroteOutput with hd | hd
      · exact Or.inr (Or.inl (h.trans hd))
      · exact Or.inr (Or.inr (h.trans hd))
    · exact Or.inl (tryBody_cold_fail w req sw tw fo hacq hce).2.1

theorem tryBody_fs_nodup (w : World) (req : SpeechRequest) (sw tw fo : String)
    (hnd : w.fs.Nodup) (hfresh : tw ∉ w.fs) (hne : fo ≠ tw)
    (hmiss : fo ∉ w.fs) : (tryBody w req sw tw fo).fs.Nodup := by
  rcases tryBody_fs_cases w req sw tw fo with h | h | h <;> rw [h]
  · exact hnd
  · exact List.nodup_cons.mpr ⟨hfresh, hnd⟩
  · refine List.nodup_cons.mpr ⟨?_, List.nodup_cons.mpr ⟨hfresh, hnd⟩⟩
    intro hm
    rcases List.mem_cons.mp hm with h1 | h1
    · exact hne h1
    · exact hmiss h1

theorem computeVoice_rr (w : World) (b : Bool) (c : Option String)
    (v : String) :
    computeVoice { w with removeRaises := b } c v = computeVoice w c v := rfl

theorem finalOutputPath_rr (w : World) (b : Bool) (req : SpeechRequest)
    (vid : String) :
    finalOutputPath { w with removeRaises := b } req vid
      = finalOutputPath w req vid := rfl

theorem tryBody_rr (w : World) (b : Bool) (req : SpeechRequest)
    (sw tw fo : String) :
    tryBody { w with removeRaises := b } req sw tw fo
      = tryBody w req sw tw fo := rfl

theorem create_speech_result_removeRaises (w : World) (req : SpeechRequest)
    (custom : Option String) (tn : String) (b : Bool) :
    (create_speech { w with removeRaises := b } req custom tn).result
      = (create_speech w req custom tn).result := by
  unfold create_speech
  simp only [computeVoice_rr, finalOutputPath_rr, tryBody_rr]
  by_cases hc : w.fs.contains
      (finalOutputPath w req (computeVoice w custom req.voice).2) = true
  · simp only [hc, if_true]
  · simp only [Bool.not_eq_true] at hc
    simp only [hc, Bool.false_eq_true, if_false]

/-- Counterexample to C6: a multi-part request carrying an ephemeral
uploaded reference whose computed key is already cached returns the cached
artifact from the pre-try early-return path, which skips the cleanup
block — the uploaded reference file up.wav persists at request end. -/
theorem cache_hit_upload_leak_cex :
    ((create_speech sampleWorldHitUpload sampleReq
        (some "up.wav") "t.wav").result
      = Except.ok "cache/hiup.wav1.0mp3enm.mp3")
    ∧ ((create_speech sampleWorldHitUpload sampleReq
        (some "up.wav") "t.wav").fs.contains "up.wav" = true) :=
  ⟨by rfl, by rfl⟩

/-- C6 (amended): for every cache-miss request — success or failure — the
finally-block cleanup leaves neither the temporary waveform nor the
ephemeral uploaded reference on disk (when the best-effort deletions
succeed), and an error raised by a deletion itself is swallowed: the HTTP
result is identical whether deletion succeeds or raises.  On a cache hit,
however, the handler returns before the cleanup block, so an ephemeral
upload present at a cache hit is not deleted (see the counterexample). -/
theorem cleanup_on_miss_amended (w : World) (req : SpeechRequest)
    (custom : Option String) (tn : String)
    (hmiss : w.fs.contains
      (finalOutputPath w req (computeVoice w custom req.voice).2) = false)
    (hnd : w.fs.Nodup)
    (hfresh : pathJoin w.tmpDir tn ∉ w.fs)
    (hTF : finalOutputPath w req (computeVoice w custom req.voice).2
      ≠ pathJoin w.tmpDir tn)
    (hrm : w.removeRaises = false) :
    ((create_speech w req custom tn).fs.contains (pathJoin w.tmpDir tn)
       = false)
    ∧ (∀ p, custom = some p →
        (create_speech w req custom tn).fs.contains p = false)
    ∧ (∀ b, (create_speech { w with removeRaises := b } req custom tn).result
        = (create_speech w req custom tn).result) := by
  have hnd' := tryBody_fs_nodup w req (computeVoice w custom req.voice).1
    (pathJoin w.tmpDir tn)
    (finalOutputPath w req (computeVoice w custom req.voice).2)
    hnd hfresh hTF ((contains_false_iff _ _).mp hmiss)
  refine ⟨?_, ?_, fun b => create_speech_result_removeRaises w req custom tn b⟩
  · rw [create_speech_fs_miss w req custom tn hmiss]
    exact (contains_false_iff _ _).mpr
      (cleanup_temp_not_mem custom hrm hnd')
  · intro p hp
    subst hp
    rw [create_speech_fs_miss w req (some p) tn hmiss]
    exact (contains_false_iff _ _).mpr (cleanup_custom_not_mem hrm hnd')

/-- Witness for C6 (amended): a cache-miss request with the ephemeral
upload up.wav on disk — afterwards neither the temporary wav nor up.wav
exists, and a raising deletion leaves the result unchanged. -/
theorem cleanup_on_miss_amended_witness :
    ((create_speech sampleWorldUpload sampleReq
        (some "up.wav") "t.wav").fs.contains
        (pathJoin sampleWorldUpload.tmpDir "t.wav") = false)
    ∧ ((create_speech sampleWorldUpload sampleReq
        (some "up.wav") "t.wav").fs.contains "up.wav" = false)
    ∧ ((create_speech { sampleWorldUpload with removeRaises := true }
          sampleReq (some "up.wav") "t.wav").result
        = (create_speech sampleWorldUpload sampleReq
            (some "up.wav") "t.wav").result) :=
  ⟨(cleanup_on_miss_amended sampleWorldUpload sampleReq (some "up.wav")
      "t.wav" (by decide) (by decide) (by decide) (by decide) rfl).1,
   (cleanup_on_miss_amended sampleWorldUpload sampleReq (some "up.wav")
      "t.wav" (by decide) (by decide) (by decide) (by decide) rfl).2.1
     "up.wav" rfl,
   (cleanup_on_miss_amended sampleWorldUpload sampleReq (some "up.wav")
      "t.wav" (by decide) (by decide) (by decide) (by decide) rfl).2.2 true⟩

end TTSServer
